import Mathlib

/-!
Verification development for the bot-arena repository.

The repository runs an adversarial self-play loop between a traffic
generation strategy (red) and a request-scoring policy (blue).  This file
gives a shallow embedding of the core components — the detector
(feature extraction, scoring, action classification), the metrics
aggregator, the win decider, the tournament orchestrator's validation
step, the proposal validators, and the JSON-backed state/history stores —
and proves properties about them.

Modelling conventions:
  * JavaScript numbers are modelled as elements of a linear ordered field;
    the scoring/metrics layer is instantiated at `ℚ` (all values that the
    programs manipulate there are finite decimals), while feature
    extraction, which genuinely computes square roots, logarithms and
    arctangents, is carried out over `ℝ`.
  * `Date.now()` is passed in as an explicit `now` parameter.
  * Side effects (file system, the spawned target service, the traffic
    run) are made explicit: file contents are `String`s or parsed values
    passed in and returned, and the isolated tournament pass performed by
    a validator is an environment-supplied `Except` outcome.
  * Human-readable `reason`/`timestamp` strings built with `toFixed` and
    `toISOString` are elided from result records; no theorem below
    concerns them.
-/

namespace BotArena

/-- The four detector actions (`DetectorAction` in the types package). -/
inductive DetectorAction where
  | allow
  | throttle
  | challenge
  | block
deriving DecidableEq, Repr

/-- One per-feature policy entry: `{ weight, threshold }`. -/
structure PolicyFeature (α : Type) where
  weight : α
  threshold : α
deriving DecidableEq, Repr

/-- The per-feature configuration of a policy.  The first six features and
the boolean warmup feature are accessed unconditionally by
`calculateScore`; `mouse_movement_entropy` and `dwell_vs_content_length`
are guarded by a truthiness check (`pf.mouse_movement_entropy && …`) in the
source, so they are modelled as `Option` (absent in older policy files).
For `asset_warmup_missing` only the weight is ever read (its `threshold?`
is optional and unused), so only the weight is modelled. -/
structure PolicyFeatures (α : Type) where
  reqs_per_min : PolicyFeature α
  unique_queries_per_hour : PolicyFeature α
  pagination_ratio : PolicyFeature α
  session_depth : PolicyFeature α
  dwell_time_avg : PolicyFeature α
  timing_variance : PolicyFeature α
  asset_warmup_missing_weight : α
  mouse_movement_entropy : Option (PolicyFeature α)
  dwell_vs_content_length : Option (PolicyFeature α)
deriving DecidableEq, Repr

/-- An action band carries a maximum score. -/
structure ActionBand (α : Type) where
  max_score : α
deriving DecidableEq, Repr

/-- The four ordered action bands of a policy. -/
structure PolicyActions (α : Type) where
  allow : ActionBand α
  throttle : ActionBand α
  challenge : ActionBand α
  block : ActionBand α
deriving DecidableEq, Repr

/-- Policy constraints (`max_false_positive_rate`). -/
structure PolicyConstraints (α : Type) where
  max_false_positive_rate : α
deriving DecidableEq, Repr

/-- A detector policy: per-feature weights/thresholds, action bands and
constraints. -/
structure Policy (α : Type) where
  features : PolicyFeatures α
  actions : PolicyActions α
  constraints : PolicyConstraints α
deriving DecidableEq, Repr

/-- The nine derived signals of a session (`SessionFeatures`). -/
structure SessionFeatures (α : Type) where
  sessionId : String
  reqs_per_min : α
  unique_queries_per_hour : α
  pagination_ratio : α
  session_depth : α
  dwell_time_avg : α
  timing_variance : α
  asset_warmup_missing : Bool
  mouse_movement_entropy : α
  dwell_vs_content_length : α
deriving DecidableEq, Repr

/-- The result of scoring one request (`DetectorResult`). -/
structure DetectorResult (α : Type) where
  sessionId : String
  score : α
  action : DetectorAction
  features : SessionFeatures α
  triggeredFeatures : List String
deriving DecidableEq, Repr

/-- `calculateScore` from the detector: each feature whose configured
comparison holds adds its weight to the score and its name to the
triggered list, in the fixed source order.  Rate-like features trigger on
`value > threshold`; `dwell_time_avg`, `timing_variance` and
`mouse_movement_entropy` trigger on `value > 0 && value < threshold`;
the boolean warmup feature triggers unconditionally on `true`; and
`dwell_vs_content_length` triggers on `value < threshold` whenever the
policy configures that feature (the source applies no positivity guard to
it). -/
def calculateScore {α : Type} [LinearOrderedField α]
    (features : SessionFeatures α) (policy : Policy α) : α × List String :=
  let pf := policy.features
  let acc0 : α × List String := (0, [])
  let acc1 :=
    if features.reqs_per_min > pf.reqs_per_min.threshold then
      (acc0.1 + pf.reqs_per_min.weight, acc0.2 ++ ["reqs_per_min"])
    else acc0
  let acc2 :=
    if features.unique_queries_per_hour > pf.unique_queries_per_hour.threshold then
      (acc1.1 + pf.unique_queries_per_hour.weight, acc1.2 ++ ["unique_queries_per_hour"])
    else acc1
  let acc3 :=
    if features.pagination_ratio > pf.pagination_ratio.threshold then
      (acc2.1 + pf.pagination_ratio.weight, acc2.2 ++ ["pagination_ratio"])
    else acc2
  let acc4 :=
    if features.session_depth > pf.session_depth.threshold then
      (acc3.1 + pf.session_depth.weight, acc3.2 ++ ["session_depth"])
    else acc3
  let acc5 :=
    if features.dwell_time_avg > 0 ∧ features.dwell_time_avg < pf.dwell_time_avg.threshold then
      (acc4.1 + pf.dwell_time_avg.weight, acc4.2 ++ ["dwell_time_avg"])
    else acc4
  let acc6 :=
    if features.timing_variance > 0 ∧ features.timing_variance < pf.timing_variance.threshold then
      (acc5.1 + pf.timing_variance.weight, acc5.2 ++ ["timing_variance"])
    else acc5
  let acc7 :=
    if features.asset_warmup_missing then
      (acc6.1 + pf.asset_warmup_missing_weight, acc6.2 ++ ["asset_warmup_missing"])
    else acc6
  let acc8 :=
    match pf.mouse_movement_entropy with
    | some cfg =>
        if features.mouse_movement_entropy > 0 ∧ features.mouse_movement_entropy < cfg.threshold then
          (acc7.1 + cfg.weight, acc7.2 ++ ["mouse_movement_entropy"])
        else acc7
    | none => acc7
  let acc9 :=
    match pf.dwell_vs_content_length with
    | some cfg =>
        if features.dwell_vs_content_length < cfg.threshold then
          (acc8.1 + cfg.weight, acc8.2 ++ ["dwell_vs_content_length"])
        else acc8
    | none => acc8
  acc9

/-- `determineAction` from the detector: linear scan over the bands,
inclusive on each band's upper bound, `block` otherwise. -/
def determineAction {α : Type} [LinearOrderedField α]
    (score : α) (policy : Policy α) : DetectorAction :=
  if score ≤ policy.actions.allow.max_score then .allow
  else if score ≤ policy.actions.throttle.max_score then .throttle
  else if score ≤ policy.actions.challenge.max_score then .challenge
  else .block

/-- The built-in default policy of the detector (`loadPolicy`'s fallback),
at the default weights and thresholds of the source. -/
def defaultPolicy : Policy ℚ :=
  { features :=
      { reqs_per_min := ⟨3/2, 20⟩
        unique_queries_per_hour := ⟨2, 30⟩
        pagination_ratio := ⟨6/5, 3/5⟩
        session_depth := ⟨1, 5⟩
        dwell_time_avg := ⟨9/5, 2000⟩
        timing_variance := ⟨3, 2/5⟩
        asset_warmup_missing_weight := 3
        mouse_movement_entropy := some ⟨4, 2⟩
        dwell_vs_content_length := some ⟨7/2, 3/10⟩ }
    actions :=
      { allow := ⟨3⟩, throttle := ⟨5⟩, challenge := ⟨8⟩, block := ⟨999⟩ }
    constraints := { max_false_positive_rate := 1/100 } }

/-- One mouse-movement sample `{x, y, timestamp}`. -/
structure MouseMovement where
  x : ℝ
  y : ℝ
  timestamp : ℝ

/-- One request-log entry (`RequestLog`): the optional fields carry the
already-decoded optional headers (`mouseMovements` is `none` when the
header was absent or held invalid JSON). -/
structure RequestLog where
  sessionId : String
  timestamp : ℝ
  path : String
  method : String
  query : List (String × String)
  userAgent : String
  isAssetRequest : Bool
  mouseMovements : Option (List MouseMovement)
  dwellTimeMs : Option ℝ
  contentLength : Option ℝ

/-- Lookup of a query-map entry (`l.query.q`, `l.query.page`). -/
def queryGet (l : RequestLog) (k : String) : Option String :=
  (l.query.find? (fun p => p.1 == k)).map (fun p => p.2)

/-- JavaScript truthiness of an optional string: present and non-empty. -/
def truthyStr : Option String → Bool
  | none => false
  | some s => s != ""

/-- `parseInt` on a decimal string: optional sign then leading digits,
`none` for `NaN`. -/
def jsParseInt (s : String) : Option ℤ :=
  let digitsVal : List Char → Option ℕ := fun cs =>
    let ds := cs.takeWhile (fun c => c.isDigit)
    if ds.isEmpty then none
    else some (ds.foldl (fun acc c => 10 * acc + (c.toNat - 48)) 0)
  match s.data.dropWhile (fun c => c = ' ') with
  | '-' :: rest => (digitsVal rest).map (fun n => -(n : ℤ))
  | '+' :: rest => (digitsVal rest).map (fun n => (n : ℤ))
  | rest => (digitsVal rest).map (fun n => (n : ℤ))

/-- `parseInt(x) || 1`: `NaN` and `0` are both falsy and replaced by 1. -/
def parseIntOr1 (s : String) : ℤ :=
  match jsParseInt s with
  | none => 1
  | some 0 => 1
  | some n => n

/-- JavaScript's truncating division step of the `%` operator. -/
noncomputable def jsTrunc (x : ℝ) : ℤ :=
  if x ≥ 0 then ⌊x⌋ else ⌈x⌉

/-- JavaScript's `%` on numbers: remainder with the dividend's sign. -/
noncomputable def jsMod (a b : ℝ) : ℝ :=
  a - b * (jsTrunc (a / b) : ℝ)

/-- `Math.atan2 y x`, the argument of the point `(x, y)`. -/
noncomputable def atan2 (y x : ℝ) : ℝ :=
  Complex.arg ⟨x, y⟩

/-- The 15°-bin of the turn angle between the segments `p1→p2` and
`p2→p3` (angle difference normalised into `[0, 360)`). -/
noncomputable def turnBin (p1 p2 p3 : MouseMovement) : ℤ :=
  let angle1 := atan2 (p2.y - p1.y) (p2.x - p1.x)
  let angle2 := atan2 (p3.y - p2.y) (p3.x - p2.x)
  let d := (angle2 - angle1) * (180 / Real.pi)
  let normalized := jsMod (jsMod d 360 + 360) 360
  ⌊normalized / 15⌋

/-- Turn-angle bins of every consecutive movement triple (the
`for (i = 2; i < length; i++)` loop). -/
noncomputable def turnBins : List MouseMovement → List ℤ
  | p1 :: p2 :: p3 :: rest => turnBin p1 p2 p3 :: turnBins (p2 :: p3 :: rest)
  | _ => []
termination_by l => l.length

/-- `calculateMouseEntropy`: Shannon entropy (base 2) of the turn-angle
bins over all movements of the session, 0 when fewer than 3 points. -/
noncomputable def calculateMouseEntropy (logs : List RequestLog) : ℝ :=
  let allMovements := logs.flatMap (fun l => l.mouseMovements.getD [])
  if allMovements.length < 3 then 0
  else
    let angles := turnBins allMovements
    if angles.length = 0 then 0
    else
      let total : ℝ := (angles.length : ℝ)
      (angles.eraseDups.map (fun b =>
        let p : ℝ := (angles.count b : ℝ) / total
        if p > 0 then -(p * Real.logb 2 p) else 0)).sum

/-- `calculateDwellContentCorrelation`: Pearson correlation between dwell
time and previous-response content length over the requests carrying both
(content length positive); `0.5` (neutral) when fewer than 3 such pairs,
`0` when the denominator vanishes. -/
noncomputable def calculateDwellContentCorrelation (logs : List RequestLog) : ℝ :=
  let validLogs := logs.filter (fun l =>
    match l.dwellTimeMs, l.contentLength with
    | some _, some c => decide (c > 0)
    | _, _ => false)
  if validLogs.length < 3 then 1/2
  else
    let dwellTimes := validLogs.map (fun l => l.dwellTimeMs.getD 0)
    let contentLengths := validLogs.map (fun l => l.contentLength.getD 0)
    let n : ℝ := (dwellTimes.length : ℝ)
    let sumX := dwellTimes.sum
    let sumY := contentLengths.sum
    let sumXY := ((dwellTimes.zip contentLengths).map (fun p => p.1 * p.2)).sum
    let sumX2 := (dwellTimes.map (fun x => x * x)).sum
    let sumY2 := (contentLengths.map (fun y => y * y)).sum
    let numerator := n * sumXY - sumX * sumY
    let denominator := Real.sqrt ((n * sumX2 - sumX * sumX) * (n * sumY2 - sumY * sumY))
    if denominator = 0 then 0 else numerator / denominator

/-- `extractFeatures (sessionId, logs)` with `Date.now()` passed as `now`:
the nine derived signals of a session, all zero/false on an empty log
list. -/
noncomputable def extractFeatures (sessionId : String) (logs : List RequestLog)
    (now : ℝ) : SessionFeatures ℝ :=
  if logs.length = 0 then
    { sessionId := sessionId
      reqs_per_min := 0
      unique_queries_per_hour := 0
      pagination_ratio := 0
      session_depth := 0
      dwell_time_avg := 0
      timing_variance := 0
      asset_warmup_missing := false
      mouse_movement_entropy := 0
      dwell_vs_content_length := 0 }
  else
    let oneMinuteAgo := now - 60000
    let oneHourAgo := now - 3600000
    let recentLogs := logs.filter (fun l => decide (l.timestamp ≥ oneMinuteAgo))
    let hourLogs := logs.filter (fun l => decide (l.timestamp ≥ oneHourAgo))
    let uniqueQueries :=
      ((hourLogs.filter (fun l => truthyStr (queryGet l "q"))).map
        (fun l => (queryGet l "q").getD "")).eraseDups
    let pageRequests := logs.filter (fun l => !l.isAssetRequest)
    let uniquePages := (pageRequests.map (fun l => l.path)).eraseDups
    let pageNumbers :=
      (logs.filter (fun l => truthyStr (queryGet l "page"))).map
        (fun l => parseIntOr1 ((queryGet l "page").getD ""))
    let sortedLogs := logs.mergeSort (fun a b => decide (a.timestamp ≤ b.timestamp))
    let gaps := (sortedLogs.zip sortedLogs.tail).map
      (fun p => p.2.timestamp - p.1.timestamp)
    { sessionId := sessionId
      reqs_per_min := (recentLogs.length : ℝ)
      unique_queries_per_hour := (uniqueQueries.length : ℝ)
      pagination_ratio :=
        if uniquePages.length > 0 then
          (pageRequests.length : ℝ) / (uniquePages.length : ℝ)
        else 0
      session_depth :=
        match pageNumbers with
        | [] => 1
        | h :: t => ((t.foldl max h : ℤ) : ℝ)
      dwell_time_avg :=
        if logs.length ≥ 2 then gaps.sum / ((sortedLogs.length - 1 : ℕ) : ℝ) else 0
      timing_variance :=
        if logs.length ≥ 3 then
          let mean := gaps.sum / (gaps.length : ℝ)
          if mean > 0 then
            let variance := (gaps.map (fun x => (x - mean) ^ 2)).sum / (gaps.length : ℝ)
            Real.sqrt variance / mean
          else 0
        else 0
      asset_warmup_missing :=
        decide ((logs.filter (fun l => l.isAssetRequest)).length = 0 ∧ 2 < logs.length)
      mouse_movement_entropy := calculateMouseEntropy logs
      dwell_vs_content_length := calculateDwellContentCorrelation logs }

/-! ### Target-app middleware (logger, detector) -/

/-- An incoming HTTP request as the two middlewares see it: the optional
`X-…` headers are carried already decoded (a malformed
`X-Mouse-Movements` JSON header decodes to `none`). -/
structure Request where
  headerSessionId : Option String
  headerMouseMovements : Option (List MouseMovement)
  headerDwellTime : Option ℝ
  headerPrevContentLength : Option ℝ
  path : String
  method : String
  query : List (String × String)
  userAgent : String

/-- `(req.headers['x-session-id'] as string) || 'unknown'`: an absent or
empty header falls back to the shared id `'unknown'`. -/
def sessionIdOf (r : Request) : String :=
  match r.headerSessionId with
  | none => "unknown"
  | some s => if s = "" then "unknown" else s

/-- `String.prototype.startsWith`, character by character. -/
def strStartsWith (s p : String) : Bool := p.data.isPrefixOf s.data

/-- `String.prototype.endsWith`, character by character. -/
def strEndsWith (s p : String) : Bool := p.data.isSuffixOf s.data

/-- The asset-path test of the logger middleware. -/
def assetExtensions : List String :=
  [".css", ".js", ".png", ".jpg", ".jpeg", ".gif", ".svg", ".woff", ".woff2", ".ttf", ".ico"]

/-- `isAssetRequest`: an asset file extension or an `/assets/` path. -/
def isAssetPath (path : String) : Bool :=
  assetExtensions.any (fun ext => strEndsWith path ext) || strStartsWith path "/assets/"

/-- The per-session request-log map (`SessionStore.logs`), read through
`getSessionLogs` which yields `[]` for an unknown key. -/
def SessionStore : Type := String → List RequestLog

/-- The request-log entry the logger middleware builds for a request. -/
def mkRequestLog (r : Request) (now : ℝ) : RequestLog :=
  { sessionId := sessionIdOf r
    timestamp := now
    path := r.path
    method := r.method
    query := r.query
    userAgent := r.userAgent
    isAssetRequest := isAssetPath r.path
    mouseMovements := r.headerMouseMovements
    dwellTimeMs := r.headerDwellTime
    contentLength := r.headerPrevContentLength }

/-- The logger middleware's skip test (admin and health endpoints). -/
def loggerSkips (path : String) : Bool :=
  strStartsWith path "/admin" || path == "/health"

/-- One pass of the logger middleware: append the request's log entry to
its session's list (creating it when absent). -/
def createLoggerMiddleware (store : SessionStore) (r : Request) (now : ℝ) :
    SessionStore :=
  if loggerSkips r.path then store
  else
    let sid := sessionIdOf r
    fun k => if k = sid then store sid ++ [mkRequestLog r now] else store k

/-- The detector middleware's skip test (admin, assets, health). -/
def detectorSkips (path : String) : Bool :=
  strStartsWith path "/admin" || strStartsWith path "/assets" || path == "/health"

/-- The per-session detector-result map (`DetectorStore.results`). -/
def DetectorStore : Type := String → List (DetectorResult ℝ)

/-- One pass of the detector middleware: score the session's logged
history and append the `DetectorResult` to the session's result list
(skipped paths leave the store untouched and produce no result). -/
noncomputable def detectorStep (policy : Policy ℝ) (sessionStore : SessionStore)
    (results : DetectorStore) (r : Request) (now : ℝ) :
    DetectorStore × Option (DetectorResult ℝ) :=
  if detectorSkips r.path then (results, none)
  else
    let sid := sessionIdOf r
    let logs := sessionStore sid
    let features := extractFeatures sid logs now
    let sc := calculateScore features policy
    let action := determineAction sc.1 policy
    let result : DetectorResult ℝ :=
      { sessionId := sid, score := sc.1, action := action,
        features := features, triggeredFeatures := sc.2 }
    (fun k => if k = sid then results sid ++ [result] else results k, some result)

/-- One request through the target app's middleware chain: the logger
first (`app.use(createLoggerMiddleware …)`), then the detector over the
just-updated session store. -/
noncomputable def processRequest (policy : Policy ℝ) (s : SessionStore)
    (d : DetectorStore) (r : Request) (now : ℝ) :
    SessionStore × DetectorStore × Option (DetectorResult ℝ) :=
  let s' := createLoggerMiddleware s r now
  let step := detectorStep policy s' d r now
  (s', step.1, step.2)

/-! ### Arena: session results and round metrics -/

/-- One simulated actor's outcome (`SessionResult`). -/
structure SessionResult where
  sessionId : String
  profileType : String
  isBot : Bool
  pagesRequested : ℕ
  pagesExtracted : ℕ
  searchesPerformed : ℕ
  detectorResults : List (DetectorResult ℚ)
  wasBlocked : Bool
  wasThrottled : Bool
  wasChallenged : Bool
  extractionRate : ℚ
  durationMs : ℚ
deriving DecidableEq, Repr

/-- Per-feature discrimination entry (`FeatureAnalysis`). -/
structure FeatureAnalysis where
  featureName : String
  botTriggerRate : ℚ
  humanTriggerRate : ℚ
  avgBotValue : Option ℚ
  avgHumanValue : Option ℚ
  discriminationScore : ℚ
deriving DecidableEq, Repr

/-- Per-profile-type aggregated statistics (`ProfileMetrics`). -/
structure ProfileMetrics where
  profileType : String
  isBot : Bool
  sessions : ℕ
  totalRequests : ℕ
  successfulExtractions : ℤ
  blockedRequests : ℕ
  throttledRequests : ℕ
  challengedRequests : ℕ
  extractionRate : ℚ
  avgScore : ℚ
  avgDwellTime : ℚ
deriving DecidableEq, Repr

/-- Round-level aggregated metrics (`RoundMetrics`; the `timestamp`
string and, in the variant without it, the absent `featureAnalysis` are
modelled by eliding the former and an `Option` for the latter). -/
structure RoundMetrics where
  fightNumber : ℕ
  roundNumber : ℕ
  profiles : List ProfileMetrics
  humanSuccessRate : ℚ
  falsePositiveRate : ℚ
  botSuppressionRate : ℚ
  botExtractionRate : ℚ
  featureAnalysis : Option (List FeatureAnalysis)
deriving DecidableEq, Repr

/-- The keys of the `profileGroups` map in insertion order: each
`profileType` at its first occurrence. -/
def groupKeys (rs : List SessionResult) : List String :=
  rs.foldl (fun ks r => if r.profileType ∈ ks then ks else ks ++ [r.profileType]) []

/-- The `profileGroups` map built by `calculateMetrics`: keys in
first-seen order, each key's group holding exactly the session results of
that profile type, in order. -/
def profileGroups (rs : List SessionResult) : List (String × List SessionResult) :=
  (groupKeys rs).map (fun k => (k, rs.filter (fun r => r.profileType == k)))

/-- `results[0].isBot` of a (by construction non-empty) group. -/
def headIsBot (g : List SessionResult) : Bool :=
  match g with
  | r :: _ => r.isBot
  | [] => false

/-- `Math.round`: round half away from zero toward positive infinity. -/
def jsRound (q : ℚ) : ℤ := ⌊q + 1/2⌋

/-- The flattened detector results of a group. -/
def groupDetectorResults (g : List SessionResult) : List (DetectorResult ℚ) :=
  g.flatMap (fun r => r.detectorResults)

/-- A group's `avgScore`: mean detector score, guarded by `Math.max(1, n)`. -/
def groupAvgScore (g : List SessionResult) : ℚ :=
  ((groupDetectorResults g).map (fun d => d.score)).sum /
    ((max 1 (groupDetectorResults g).length : ℕ) : ℚ)

/-- A group's `avgDwellTime`: mean of per-session `durationMs / max(1, pagesRequested)`. -/
def groupAvgDwellTime (g : List SessionResult) : ℚ :=
  (g.map (fun r => r.durationMs / ((max 1 r.pagesRequested : ℕ) : ℚ))).sum /
    ((max 1 g.length : ℕ) : ℚ)

namespace Tournament

/-- The per-group `ProfileMetrics` of the binary-extraction
`calculateMetrics` (extraction = `pagesExtracted / pagesRequested`). -/
def mkProfileMetrics (k : String) (g : List SessionResult) : ProfileMetrics :=
  let totalRequests := (g.map (fun r => r.pagesRequested)).sum
  let successfulExtractions := (g.map (fun r => r.pagesExtracted)).sum
  { profileType := k
    isBot := headIsBot g
    sessions := g.length
    totalRequests := totalRequests
    successfulExtractions := (successfulExtractions : ℤ)
    blockedRequests := (g.filter (fun r => r.wasBlocked)).length
    throttledRequests := (g.filter (fun r => r.wasThrottled)).length
    challengedRequests := (g.filter (fun r => r.wasChallenged)).length
    extractionRate :=
      if totalRequests > 0 then (successfulExtractions : ℚ) / (totalRequests : ℚ) else 0
    avgScore := groupAvgScore g
    avgDwellTime := groupAvgDwellTime g }

/-- The binary-extraction `calculateMetrics` of the tournament module:
human success = fraction of unblocked human sessions, extraction =
extracted/requested pages over bot groups (a group counts as bot when its
first member is). -/
def calculateMetrics (sessionResults : List SessionResult)
    (fightNumber roundNumber : ℕ) : RoundMetrics :=
  let groups := profileGroups sessionResults
  let humanGroups := groups.filter (fun kg => !headIsBot kg.2)
  let botGroups := groups.filter (fun kg => headIsBot kg.2)
  let humanTotalCount := (humanGroups.map (fun kg => kg.2.length)).sum
  let humanSuccessCount :=
    (humanGroups.map (fun kg => (kg.2.filter (fun r => !r.wasBlocked)).length)).sum
  let humanBlockedCount :=
    (humanGroups.map (fun kg => (kg.2.filter (fun r => r.wasBlocked)).length)).sum
  let botTotalExtractions :=
    (botGroups.map (fun kg => (kg.2.map (fun r => r.pagesExtracted)).sum)).sum
  let botTotalRequests :=
    (botGroups.map (fun kg => (kg.2.map (fun r => r.pagesRequested)).sum)).sum
  let botExtractionRate :=
    if botTotalRequests > 0 then (botTotalExtractions : ℚ) / (botTotalRequests : ℚ) else 0
  { fightNumber := fightNumber
    roundNumber := roundNumber
    profiles := groups.map (fun kg => mkProfileMetrics kg.1 kg.2)
    humanSuccessRate :=
      if humanTotalCount > 0 then (humanSuccessCount : ℚ) / (humanTotalCount : ℚ) else 1
    falsePositiveRate :=
      if humanTotalCount > 0 then (humanBlockedCount : ℚ) / (humanTotalCount : ℚ) else 0
    botSuppressionRate := 1 - botExtractionRate
    botExtractionRate := botExtractionRate
    featureAnalysis := none }

end Tournament

/-- `validatePolicy`'s result (`PolicyValidationResult`). -/
structure PolicyValidationResult where
  valid : Bool
  errors : List String
deriving DecidableEq, Repr

/-- `validatePolicy`: one error per adjacent band pair that is not
strictly increasing, valid iff no error.  The interpolated numeric text
of the error messages is elided. -/
def validatePolicy (policy : Policy ℚ) : PolicyValidationResult :=
  let a := policy.actions
  let errors :=
    (if ¬(a.allow.max_score < a.throttle.max_score) then
      ["allow must be < throttle"] else []) ++
    (if ¬(a.throttle.max_score < a.challenge.max_score) then
      ["throttle must be < challenge"] else []) ++
    (if ¬(a.challenge.max_score < a.block.max_score) then
      ["challenge must be < block"] else [])
  { valid := errors.length == 0, errors := errors }

/-- The observable external effects of one `runTournament` call. -/
inductive TournamentEvent where
  | serviceStarted
  | trafficRun
  | serviceClosed
deriving DecidableEq, Repr

/-- The environment a `runTournament` call runs against: whether the
target service comes up, and what the parallel traffic run returns (or
throws). -/
structure TournamentEnv where
  startResult : Except String Unit
  traffic : Except String (List SessionResult)

/-- The error message thrown on a structurally invalid policy. -/
def invalidPolicyMsg (errors : List String) : String :=
  "Invalid policy configuration:\n  - " ++ String.intercalate "\n  - " errors

namespace Tournament

/-- `runTournament` with the loaded configs passed in and its effects
made explicit: validate the policy (throwing before anything is started
when the bands are not strictly increasing), start the target service,
run the traffic, aggregate; the service is closed on every exit path
after a successful start (the `finally` block). -/
def runTournament (policy : Policy ℚ) (env : TournamentEnv)
    (fightNumber roundNumber : ℕ) :
    List TournamentEvent × Except String RoundMetrics :=
  let validation := validatePolicy policy
  if validation.valid then
    match env.startResult with
    | .error e => ([], .error e)
    | .ok _ =>
      match env.traffic with
      | .error e => ([.serviceStarted, .serviceClosed], .error e)
      | .ok rs =>
          ([.serviceStarted, .trafficRun, .serviceClosed],
            .ok (calculateMetrics rs fightNumber roundNumber))
  else ([], .error (invalidPolicyMsg validation.errors))

end Tournament

namespace TournamentW

/-- The fixed per-action credit table of the weighted tournament module
(`EXTRACTION_WEIGHTS`). -/
def EXTRACTION_WEIGHTS : DetectorAction → ℚ
  | .block => 0
  | .challenge => 1/4
  | .throttle => 1/2
  | .allow => 1

/-- A group's weighted extraction credit: the credit of every observed
`DetectorResult` of the group, summed. -/
def groupWeighted (g : List SessionResult) : ℚ :=
  ((groupDetectorResults g).map (fun dr => EXTRACTION_WEIGHTS dr.action)).sum

/-- A group's observed request count: its number of `DetectorResult`s. -/
def groupCount (g : List SessionResult) : ℕ :=
  (groupDetectorResults g).length

/-- The numeric feature of a `SessionFeatures` record by name, `none` for
the boolean warmup feature (excluded by the `typeof === 'number'` filter)
and unknown names. -/
def featureValue (f : SessionFeatures ℚ) : String → Option ℚ
  | "reqs_per_min" => some f.reqs_per_min
  | "unique_queries_per_hour" => some f.unique_queries_per_hour
  | "pagination_ratio" => some f.pagination_ratio
  | "session_depth" => some f.session_depth
  | "dwell_time_avg" => some f.dwell_time_avg
  | "timing_variance" => some f.timing_variance
  | "mouse_movement_entropy" => some f.mouse_movement_entropy
  | "dwell_vs_content_length" => some f.dwell_vs_content_length
  | _ => none

/-- The nine feature names in the order `calculateFeatureAnalysis` lists
them. -/
def featureNames : List String :=
  ["reqs_per_min", "unique_queries_per_hour", "pagination_ratio",
   "session_depth", "dwell_time_avg", "timing_variance", "asset_warmup_missing",
   "mouse_movement_entropy", "dwell_vs_content_length"]

/-- `calculateFeatureAnalysis`: per feature, the fraction of bot and of
human sessions that ever triggered it, the average observed numeric
values, and their trigger-rate difference. -/
def calculateFeatureAnalysis (sessionResults : List SessionResult) :
    List FeatureAnalysis :=
  let botSessions := sessionResults.filter (fun s => s.isBot)
  let humanSessions := sessionResults.filter (fun s => !s.isBot)
  featureNames.map (fun featureName =>
    let botTriggered := (botSessions.filter (fun s =>
      s.detectorResults.any (fun dr => dr.triggeredFeatures.contains featureName))).length
    let humanTriggered := (humanSessions.filter (fun s =>
      s.detectorResults.any (fun dr => dr.triggeredFeatures.contains featureName))).length
    let botTriggerRate :=
      if botSessions.length > 0 then (botTriggered : ℚ) / (botSessions.length : ℚ) else 0
    let humanTriggerRate :=
      if humanSessions.length > 0 then (humanTriggered : ℚ) / (humanSessions.length : ℚ) else 0
    let botValues := if featureName = "asset_warmup_missing" then [] else
      botSessions.flatMap (fun s =>
        s.detectorResults.filterMap (fun dr => featureValue dr.features featureName))
    let humanValues := if featureName = "asset_warmup_missing" then [] else
      humanSessions.flatMap (fun s =>
        s.detectorResults.filterMap (fun dr => featureValue dr.features featureName))
    { featureName := featureName
      botTriggerRate := botTriggerRate
      humanTriggerRate := humanTriggerRate
      avgBotValue :=
        if botValues.length > 0 ∧ featureName ≠ "asset_warmup_missing" then
          some (botValues.sum / (botValues.length : ℚ))
        else none
      avgHumanValue :=
        if humanValues.length > 0 ∧ featureName ≠ "asset_warmup_missing" then
          some (humanValues.sum / (humanValues.length : ℚ))
        else none
      discriminationScore := botTriggerRate - humanTriggerRate })

/-- The per-group `ProfileMetrics` of the weighted `calculateMetrics`
(extraction = per-request credit mean; `successfulExtractions` is the
rounded credit total, for display). -/
def mkProfileMetrics (k : String) (g : List SessionResult) : ProfileMetrics :=
  { profileType := k
    isBot := headIsBot g
    sessions := g.length
    totalRequests := (g.map (fun r => r.pagesRequested)).sum
    successfulExtractions := jsRound (groupWeighted g)
    blockedRequests := (g.filter (fun r => r.wasBlocked)).length
    throttledRequests := (g.filter (fun r => r.wasThrottled)).length
    challengedRequests := (g.filter (fun r => r.wasChallenged)).length
    extractionRate :=
      if groupCount g > 0 then groupWeighted g / (groupCount g : ℚ) else 0
    avgScore := groupAvgScore g
    avgDwellTime := groupAvgDwellTime g }

/-- The weighted `calculateMetrics`: per-action credit over every
observed `DetectorResult`, accumulated per group into the human or bot
side according to the group's first member; human-side mean credit is the
round's human success rate, `1 −` it the false-positive rate, bot-side
mean credit the extraction rate, `1 −` it the suppression rate. -/
def calculateMetrics (sessionResults : List SessionResult)
    (fightNumber roundNumber : ℕ) : RoundMetrics :=
  let groups := profileGroups sessionResults
  let humanGroups := groups.filter (fun kg => !headIsBot kg.2)
  let botGroups := groups.filter (fun kg => headIsBot kg.2)
  let humanWeightedExtractions := (humanGroups.map (fun kg => groupWeighted kg.2)).sum
  let humanTotalRequests := (humanGroups.map (fun kg => groupCount kg.2)).sum
  let botWeightedExtractions := (botGroups.map (fun kg => groupWeighted kg.2)).sum
  let botTotalRequests := (botGroups.map (fun kg => groupCount kg.2)).sum
  let humanExtractionRate :=
    if humanTotalRequests > 0 then
      humanWeightedExtractions / (humanTotalRequests : ℚ)
    else 1
  let botExtractionRate :=
    if botTotalRequests > 0 then botWeightedExtractions / (botTotalRequests : ℚ) else 0
  { fightNumber := fightNumber
    roundNumber := roundNumber
    profiles := groups.map (fun kg => mkProfileMetrics kg.1 kg.2)
    humanSuccessRate := humanExtractionRate
    falsePositiveRate := 1 - humanExtractionRate
    botSuppressionRate := 1 - botExtractionRate
    botExtractionRate := botExtractionRate
    featureAnalysis := some (calculateFeatureAnalysis sessionResults) }

end TournamentW

/-! ### Win decider -/

/-- The threshold set of the win decider (`WinConditions`). -/
structure WinConditions where
  fprThreshold : ℚ
  humanSuccessThreshold : ℚ
  redWinThreshold : ℚ
  blueWinThreshold : ℚ
deriving DecidableEq, Repr

/-- `DEFAULT_WIN_CONDITIONS`: fprThreshold 0.05, humanSuccessThreshold
0.95, redWinThreshold 0.5, blueWinThreshold 0.5. -/
def DEFAULT_WIN_CONDITIONS : WinConditions :=
  { fprThreshold := 1/20
    humanSuccessThreshold := 19/20
    redWinThreshold := 1/2
    blueWinThreshold := 1/2 }

/-- A round's outcome. -/
inductive Winner where
  | red
  | blue
  | draw
deriving DecidableEq, Repr

/-- `determineWinner` (the human-readable reason string is elided): red
on extraction above the red threshold, else blue on suppression above the
blue threshold with the FPR constraint met, else draw. -/
def determineWinner (metrics : RoundMetrics) (conditions : WinConditions) : Winner :=
  let blueConstrained := metrics.falsePositiveRate ≤ conditions.fprThreshold
  if metrics.botExtractionRate > conditions.redWinThreshold then .red
  else if metrics.botSuppressionRate > conditions.blueWinThreshold ∧ blueConstrained then .blue
  else .draw

/-! ### JSON documents

The persisted configuration and state documents.  `JSON.parse` /
`JSON.stringify(·, null, 2)` are modelled over a JSON value type whose
numbers are integers and whose strings contain no characters requiring
escape sequences — sufficient for every document these programs persist
and for every concrete input evaluated below. -/

/-- A JSON document; object fields keep insertion order. -/
inductive Json where
  | null
  | bool (b : Bool)
  | num (n : ℤ)
  | str (s : String)
  | arr (elems : List Json)
  | obj (fields : List (String × Json))

/-- An opening brace as string text. -/
def lbrace : String := "\x7b"

/-- A closing brace as string text. -/
def rbrace : String := "\x7d"

/-- `2 · n` spaces: the per-level indent of `JSON.stringify(·, null, 2)`. -/
def indentStr (n : ℕ) : String := String.mk (List.replicate (2 * n) ' ')

/-- A JSON string literal (assuming no escape-needing characters). -/
def quoteStr (s : String) : String := "\"" ++ s ++ "\""

mutual

/-- `JSON.stringify(v, null, 2)` at nesting depth `d`. -/
def stringifyVal (d : ℕ) : Json → String
  | .null => "null"
  | .bool true => "true"
  | .bool false => "false"
  | .num n => toString n
  | .str s => quoteStr s
  | .arr [] => "[]"
  | .arr (e :: es) =>
      "[\n" ++ String.intercalate ",\n" (stringifyItems (d + 1) (e :: es)) ++
        "\n" ++ indentStr d ++ "]"
  | .obj [] => lbrace ++ rbrace
  | .obj (f :: fs) =>
      lbrace ++ "\n" ++ String.intercalate ",\n" (stringifyFields (d + 1) (f :: fs)) ++
        "\n" ++ indentStr d ++ rbrace

/-- The formatted lines of an array's items. -/
def stringifyItems (d : ℕ) : List Json → List String
  | [] => []
  | e :: es => (indentStr d ++ stringifyVal d e) :: stringifyItems d es

/-- The formatted lines of an object's fields. -/
def stringifyFields (d : ℕ) : List (String × Json) → List String
  | [] => []
  | (k, v) :: fs =>
      (indentStr d ++ quoteStr k ++ ": " ++ stringifyVal d v) :: stringifyFields d fs

end

/-- Leading JSON whitespace removed. -/
def skipWs (cs : List Char) : List Char :=
  cs.dropWhile (fun c => c == ' ' || c == '\n' || c == '\t' || c == '\r')

/-- A leading run of decimal digits and the rest, `none` when there is
no digit. -/
def parseDigits (cs : List Char) : Option (ℕ × List Char) :=
  let ds := cs.takeWhile (fun c => c.isDigit)
  if ds.isEmpty then none
  else some (ds.foldl (fun acc c => 10 * acc + (c.toNat - 48)) 0, cs.drop ds.length)

mutual

/-- Fueled recursive-descent parser for one JSON value; returns the value
and the unconsumed rest. -/
def parseVal : ℕ → List Char → Option (Json × List Char)
  | 0, _ => none
  | fuel + 1, cs =>
    match skipWs cs with
    | 'n' :: 'u' :: 'l' :: 'l' :: rest => some (.null, rest)
    | 't' :: 'r' :: 'u' :: 'e' :: rest => some (.bool true, rest)
    | 'f' :: 'a' :: 'l' :: 's' :: 'e' :: rest => some (.bool false, rest)
    | '"' :: rest =>
        let strChars := rest.takeWhile (fun c => c != '"')
        (match rest.drop strChars.length with
          | '"' :: rest' => some (.str (String.mk strChars), rest')
          | _ => none)
    | '-' :: rest =>
        (parseDigits rest).map (fun p => (.num (-(p.1 : ℤ)), p.2))
    | '[' :: rest =>
        (match skipWs rest with
          | ']' :: rest' => some (.arr [], rest')
          | _ => (parseItems fuel rest).map (fun p => (.arr p.1, p.2)))
    | '\x7b' :: rest =>
        (match skipWs rest with
          | '\x7d' :: rest' => some (.obj [], rest')
          | _ => (parseFields fuel rest).map (fun p => (.obj p.1, p.2)))
    | c :: rest =>
        if c.isDigit then
          (parseDigits (c :: rest)).map (fun p => (.num (p.1 : ℤ), p.2))
        else none
    | [] => none

/-- The comma-separated items of a non-empty array, up to and including
the closing bracket. -/
def parseItems : ℕ → List Char → Option (List Json × List Char)
  | 0, _ => none
  | fuel + 1, cs =>
    match parseVal fuel cs with
    | none => none
    | some (v, rest) =>
      match skipWs rest with
      | ',' :: rest' => (parseItems fuel rest').map (fun p => (v :: p.1, p.2))
      | ']' :: rest' => some ([v], rest')
      | _ => none

/-- The comma-separated fields of a non-empty object, up to and
including the closing brace. -/
def parseFields : ℕ → List Char → Option (List (String × Json) × List Char)
  | 0, _ => none
  | fuel + 1, cs =>
    match skipWs cs with
    | '"' :: rest =>
      let keyChars := rest.takeWhile (fun c => c != '"')
      (match rest.drop keyChars.length with
        | '"' :: rest' =>
          (match skipWs rest' with
            | ':' :: rest'' =>
              (match parseVal fuel rest'' with
                | none => none
                | some (v, rest3) =>
                  (match skipWs rest3 with
                    | ',' :: rest4 =>
                        (parseFields fuel rest4).map
                          (fun p => ((String.mk keyChars, v) :: p.1, p.2))
                    | '\x7d' :: rest4 => some ([(String.mk keyChars, v)], rest4)
                    | _ => none))
            | _ => none)
        | _ => none)
    | _ => none

end

/-- `JSON.parse`: one JSON value, nothing but whitespace after it. -/
def parseJson (s : String) : Option Json :=
  match parseVal (2 * s.length + 4) s.data with
  | some (v, rest) => if (skipWs rest).isEmpty then some v else none
  | none => none

/-- Object-field lookup. -/
def getKey (fields : List (String × Json)) (k : String) : Option Json :=
  (fields.find? (fun p => p.1 == k)).map (fun p => p.2)

/-- Property access `v[k]`: a field of an object, `undefined` (`none`)
on anything else. -/
def getField : Json → String → Option Json
  | .obj fields, k => getKey fields k
  | _, _ => none

/-- `x ?? d`: `d` for `undefined` and `null`, `x` otherwise. -/
def jsNullish (v : Option Json) (d : Json) : Json :=
  match v with
  | none => d
  | some .null => d
  | some x => x

/-! ### State and history stores -/

/-- The arena state as `loadState` materialises it (`currentFightNumber`
and `reports` taken from the parsed document with `?? 0` / `?? []`,
kept as raw JSON values since `loadState` does not validate them). -/
structure ArenaState where
  currentFightNumber : Json
  reports : Json

/-- `DEFAULT_STATE`: fight counter 0, no reports. -/
def DEFAULT_STATE : ArenaState := ⟨.num 0, .arr []⟩

/-- `loadState` with the file system made explicit (`none` = the path
does not exist): the parsed state, or the default on a missing or
unparseable file. -/
def loadState : Option String → ArenaState
  | none => DEFAULT_STATE
  | some s =>
    match parseJson s with
    | none => DEFAULT_STATE
    | some parsed =>
        ⟨jsNullish (getField parsed "currentFightNumber") (.num 0),
          jsNullish (getField parsed "reports") (.arr [])⟩

/-- `loadHistory` with the file system made explicit: the parsed history
document, or the empty list on a missing or unparseable file (the
`as ProposalHistoryEntry[]` assertion performs no validation, so the
parsed value is returned as is). -/
def loadHistory : Option String → Json
  | none => .arr []
  | some s => (parseJson s).getD (.arr [])

/-! ### Proposal validators -/

/-- The recursive part of `deepMerge` over object field lists: for each
source field in order, recurse when both sides hold (non-array, non-null)
objects, otherwise replace; new keys are appended, existing keys updated
in place. -/
def setKey (fields : List (String × Json)) (k : String) (v : Json) :
    List (String × Json) :=
  if fields.any (fun p => p.1 == k) then
    fields.map (fun p => if p.1 == k then (k, v) else p)
  else fields ++ [(k, v)]

/-- `deepMerge` over the fields of two objects (see `deepMerge`). -/
def deepMergeFields (tf : List (String × Json)) :
    List (String × Json) → List (String × Json)
  | [] => tf
  | (k, sv) :: rest =>
      let tf' :=
        match getKey tf k, sv with
        | some (.obj tsub), .obj ssub => setKey tf k (.obj (deepMergeFields tsub ssub))
        | _, _ => setKey tf k sv
      deepMergeFields tf' rest

/-- `deepMerge(target, source)`: object-typed fields merge recursively
key by key, arrays and primitives are replaced whole (the validators only
ever call it on two parsed config objects; `undefined` fields do not
occur in parsed JSON). -/
def deepMerge (target source : Json) : Json :=
  match target, source with
  | .obj tf, .obj sf => .obj (deepMergeFields tf sf)
  | _, _ => source

/-- `improvement` of an accepted validation. -/
structure Improvement where
  metric : String
  before : ℚ
  after : ℚ
  delta : ℚ
deriving DecidableEq, Repr

/-- `ValidationResult` (the human-readable `reason` string is elided). -/
structure ValidationResult where
  accepted : Bool
  beforeMetrics : RoundMetrics
  afterMetrics : RoundMetrics
  improvement : Option Improvement
deriving DecidableEq, Repr

/-- `saveAttackProfile` (and `savePolicy`'s JSON analogue): the file
content written for a config value, `JSON.stringify(value, null, 2)`. -/
def saveAttackProfile (profile : Json) : String := stringifyVal 0 profile

/-- One full `validateRedProposal` run over an explicit on-disk profile
file, with the isolated tournament pass an environment-supplied
`outcome`.  Returns the thrown-or-returned result and the final file
content: the proposal is merged and persisted, and on rejection or on an
exception from the tournament pass the in-memory backup (`{ …current }`,
value-equal to the parsed pre-run content) is re-serialised to disk.  A
pre-run file that does not parse throws out of the function before
anything is written. -/
def validateRedProposalRun (fileContent : String) (changes : Json)
    (baselineMetrics : RoundMetrics) (outcome : Except String RoundMetrics) :
    Except String ValidationResult × String :=
  match parseJson fileContent with
  | none => (.error "config parse error", fileContent)
  | some currentProfile =>
    let proposedProfile := deepMerge currentProfile changes
    let backupProfile := currentProfile
    let diskAfterSave := saveAttackProfile proposedProfile
    match outcome with
    | .error _ =>
        (.ok { accepted := false, beforeMetrics := baselineMetrics,
               afterMetrics := baselineMetrics, improvement := none },
          saveAttackProfile backupProfile)
    | .ok afterMetrics =>
      let beforeExtraction := baselineMetrics.botExtractionRate
      let afterExtraction := afterMetrics.botExtractionRate
      let improved := decide (afterExtraction > beforeExtraction)
      let constraintsMet := true
      let accepted := improved && constraintsMet
      if accepted then
        (.ok { accepted := true, beforeMetrics := baselineMetrics,
               afterMetrics := afterMetrics,
               improvement := some
                 { metric := "botExtractionRate", before := beforeExtraction,
                   after := afterExtraction,
                   delta := afterExtraction - beforeExtraction } },
          diskAfterSave)
      else
        (.ok { accepted := false, beforeMetrics := baselineMetrics,
               afterMetrics := afterMetrics, improvement := none },
          saveAttackProfile backupProfile)

/-- One full `validateBlueProposal` run (the hardcoded-constant variant
of the arena's validator module: FPR ≤ 0.01, human success ≥ 0.99), with
the policy file tracked at YAML-value level (the YAML serialiser is
value-faithful) and the isolated tournament pass an environment-supplied
`outcome`.  Returns the result and the final on-disk policy value. -/
def validateBlueProposalRun (currentPolicy : Json) (changes : Json)
    (baselineMetrics : RoundMetrics) (outcome : Except String RoundMetrics) :
    ValidationResult × Json :=
  let proposedPolicy := deepMerge currentPolicy changes
  let backupPolicy := currentPolicy
  match outcome with
  | .error _ =>
      ({ accepted := false, beforeMetrics := baselineMetrics,
         afterMetrics := baselineMetrics, improvement := none }, backupPolicy)
  | .ok afterMetrics =>
    let beforeSuppression := baselineMetrics.botSuppressionRate
    let afterSuppression := afterMetrics.botSuppressionRate
    let improved := decide (afterSuppression > beforeSuppression)
    let fprConstraint := decide (afterMetrics.falsePositiveRate ≤ 1/100)
    let humanSuccessConstraint := decide (afterMetrics.humanSuccessRate ≥ 99/100)
    let accepted := improved && fprConstraint && humanSuccessConstraint
    if accepted then
      ({ accepted := true, beforeMetrics := baselineMetrics,
         afterMetrics := afterMetrics,
         improvement := some
           { metric := "botSuppressionRate", before := beforeSuppression,
             after := afterSuppression,
             delta := afterSuppression - beforeSuppression } },
        proposedPolicy)
    else
      ({ accepted := false, beforeMetrics := baselineMetrics,
         afterMetrics := afterMetrics, improvement := none }, backupPolicy)

/-- The detector-side acceptance rule exactly as the specification words
it, for comparison with `validateBlueProposalRun`: improvement and the
FPR/human-success constraints at the given thresholds (defaults 0.05 and
0.95). -/
def claimedBlueAcceptance (beforeMetrics afterMetrics : RoundMetrics)
    (fprThreshold humanSuccessThreshold : ℚ) : Bool :=
  decide (afterMetrics.botSuppressionRate > beforeMetrics.botSuppressionRate) &&
  decide (afterMetrics.falsePositiveRate ≤ fprThreshold) &&
  decide (afterMetrics.humanSuccessRate ≥ humanSuccessThreshold)

/-! ## Theorems -/

/-- C3: for every score and policy, `determineAction` yields `allow` iff
the score is at most the allow band's bound, otherwise `throttle` iff at
most the throttle bound, otherwise `challenge` iff at most the challenge
bound, otherwise `block`; with the default bands `{allow 3, throttle 5,
challenge 8, block 999}` the boundary scores 3.0, 3.1, 4.9, 5.1, 7.9,
8.1 and 100 classify as allow, throttle, throttle, challenge, challenge,
block and block. -/
theorem determineAction_band_law :
    (∀ (score : ℚ) (policy : Policy ℚ),
      (determineAction score policy = .allow ↔
        score ≤ policy.actions.allow.max_score) ∧
      (¬ score ≤ policy.actions.allow.max_score →
        (determineAction score policy = .throttle ↔
          score ≤ policy.actions.throttle.max_score)) ∧
      (¬ score ≤ policy.actions.allow.max_score →
        ¬ score ≤ policy.actions.throttle.max_score →
        (determineAction score policy = .challenge ↔
          score ≤ policy.actions.challenge.max_score)) ∧
      (¬ score ≤ policy.actions.allow.max_score →
        ¬ score ≤ policy.actions.throttle.max_score →
        ¬ score ≤ policy.actions.challenge.max_score →
        determineAction score policy = .block)) ∧
    determineAction 3 defaultPolicy = .allow ∧
    determineAction (31/10) defaultPolicy = .throttle ∧
    determineAction (49/10) defaultPolicy = .throttle ∧
    determineAction (51/10) defaultPolicy = .challenge ∧
    determineAction (79/10) defaultPolicy = .challenge ∧
    determineAction (81/10) defaultPolicy = .block ∧
    determineAction 100 defaultPolicy = .block := by
  refine ⟨fun score policy => ?_,
    by norm_num [determineAction, defaultPolicy],
    by norm_num [determineAction, defaultPolicy],
    by norm_num [determineAction, defaultPolicy],
    by norm_num [determineAction, defaultPolicy],
    by norm_num [determineAction, defaultPolicy],
    by norm_num [determineAction, defaultPolicy],
    by norm_num [determineAction, defaultPolicy]⟩
  by_cases h1 : score ≤ policy.actions.allow.max_score <;>
    by_cases h2 : score ≤ policy.actions.throttle.max_score <;>
      by_cases h3 : score ≤ policy.actions.challenge.max_score <;>
        simp [determineAction, h1, h2, h3]

/-- C5: `determineWinner` declares red exactly when the extraction rate
exceeds the red threshold (regardless of the other rates); blue exactly
when red did not win, suppression exceeds the blue threshold and the FPR
constraint is met; a draw in every remaining case. -/
theorem determineWinner_precedence :
    ∀ (metrics : RoundMetrics) (conditions : WinConditions),
      (determineWinner metrics conditions = .red ↔
        metrics.botExtractionRate > conditions.redWinThreshold) ∧
      (determineWinner metrics conditions = .blue ↔
        (¬ metrics.botExtractionRate > conditions.redWinThreshold ∧
          metrics.botSuppressionRate > conditions.blueWinThreshold ∧
          metrics.falsePositiveRate ≤ conditions.fprThreshold)) ∧
      (determineWinner metrics conditions = .draw ↔
        (¬ metrics.botExtractionRate > conditions.redWinThreshold ∧
          ¬ (metrics.botSuppressionRate > conditions.blueWinThreshold ∧
             metrics.falsePositiveRate ≤ conditions.fprThreshold))) := by
  intro metrics conditions
  by_cases h1 : metrics.botExtractionRate > conditions.redWinThreshold <;>
    by_cases h2 : metrics.botSuppressionRate > conditions.blueWinThreshold ∧
        metrics.falsePositiveRate ≤ conditions.fprThreshold <;>
      simp [determineWinner, h1, h2]

/-- C8: on an empty request-log list, `extractFeatures` returns the
all-zero feature vector with `asset_warmup_missing = false`, for every
session id (and every clock reading). -/
theorem extractFeatures_empty_logs :
    ∀ (sid : String) (now : ℝ),
      extractFeatures sid [] now =
        { sessionId := sid, reqs_per_min := 0, unique_queries_per_hour := 0,
          pagination_ratio := 0, session_depth := 0, dwell_time_avg := 0,
          timing_variance := 0, asset_warmup_missing := false,
          mouse_movement_entropy := 0, dwell_vs_content_length := 0 } := by
  intro sid now
  simp [extractFeatures]

/-- C9: `loadState` and `loadHistory` return the empty initial values —
fight counter 0 with no reports, and an empty history list — both when
the file is missing and when its content does not parse as JSON,
instead of propagating the failure. -/
theorem load_state_history_fallback :
    loadState none = DEFAULT_STATE ∧
    (∀ s : String, parseJson s = none → loadState (some s) = DEFAULT_STATE) ∧
    loadHistory none = Json.arr [] ∧
    (∀ s : String, parseJson s = none → loadHistory (some s) = Json.arr []) ∧
    DEFAULT_STATE.currentFightNumber = Json.num 0 ∧
    DEFAULT_STATE.reports = Json.arr [] ∧
    parseJson "not json" = none ∧
    loadState (some "not json") = DEFAULT_STATE ∧
    loadHistory (some "not json") = Json.arr [] := by
  refine ⟨rfl, fun s h => by simp [loadState, h], rfl,
    fun s h => by simp [loadHistory, h], rfl, rfl, rfl, rfl, rfl⟩

/-- C2 (amended): the arena validator's `validateBlueProposal` accepts a
detector-side proposal iff the after-run suppression exceeds the
before-run suppression AND the after-run false-positive rate is at most
the hardcoded 0.01 AND the after-run human success rate is at least the
hardcoded 0.99; a run whose tournament pass throws is always rejected. -/
theorem validateBlueProposal_acceptance_rule :
    ∀ (cur changes : Json) (b am : RoundMetrics) (e : String),
      ((validateBlueProposalRun cur changes b (.ok am)).1.accepted = true ↔
        (am.botSuppressionRate > b.botSuppressionRate ∧
          am.falsePositiveRate ≤ 1/100 ∧ am.humanSuccessRate ≥ 99/100)) ∧
      (validateBlueProposalRun cur changes b (.error e)).1.accepted = false := by
  intro cur changes b am e
  refine ⟨?_, rfl⟩
  simp only [validateBlueProposalRun]
  split_ifs with h <;>
    simp_all [Bool.and_eq_true, decide_eq_true_eq, and_assoc]

/-- C2 (counterexample): a run whose after-metrics satisfy the claimed
rule at the default thresholds (FPR 0.03 ≤ 0.05, human success 0.97 ≥
0.95, suppression improved) is nevertheless rejected by
`validateBlueProposal`, whose constants are 0.01 and 0.99. -/
theorem validateBlueProposal_claimed_thresholds_refuted :
    claimedBlueAcceptance ⟨1, 1, [], 1, 0, 1/2, 1/2, none⟩
      ⟨1, 1, [], 97/100, 3/100, 3/5, 2/5, none⟩
      DEFAULT_WIN_CONDITIONS.fprThreshold
      DEFAULT_WIN_CONDITIONS.humanSuccessThreshold = true ∧
    (validateBlueProposalRun (Json.obj []) (Json.obj [])
      ⟨1, 1, [], 1, 0, 1/2, 1/2, none⟩
      (.ok ⟨1, 1, [], 97/100, 3/100, 3/5, 2/5, none⟩)).1.accepted = false := by
  constructor
  · norm_num [claimedBlueAcceptance, DEFAULT_WIN_CONDITIONS]
  · norm_num [validateBlueProposalRun]

/-- C1 (amended): a `validateRedProposal` run that ends in rejection or
in a tournament-pass exception leaves the on-disk attack profile holding
the canonical re-serialisation of the parsed pre-run content — hence
byte-identical to the pre-run content exactly when that content was
already in canonical `JSON.stringify(·, null, 2)` form (as every file the
arena itself writes is), and value-identical always; a pre-run file that
fails to parse throws before anything is written, leaving the bytes
untouched; and a rejected or failed `validateBlueProposal` run restores
the pre-run policy value exactly. -/
theorem validator_rejection_restores_config :
    (∀ (s : String) (cur changes : Json) (b : RoundMetrics)
        (o : Except String RoundMetrics) (v : ValidationResult),
      parseJson s = some cur →
      (validateRedProposalRun s changes b o).1 = .ok v →
      v.accepted = false →
      (validateRedProposalRun s changes b o).2 = saveAttackProfile cur ∧
        (s = saveAttackProfile cur → (validateRedProposalRun s changes b o).2 = s)) ∧
    (∀ (s : String) (changes : Json) (b : RoundMetrics)
        (o : Except String RoundMetrics),
      parseJson s = none →
      (validateRedProposalRun s changes b o).2 = s) ∧
    (∀ (cur changes : Json) (b : RoundMetrics) (o : Except String RoundMetrics),
      (validateBlueProposalRun cur changes b o).1.accepted = false →
      (validateBlueProposalRun cur changes b o).2 = cur) := by
  refine ⟨?_, ?_, ?_⟩
  · intro s cur changes b o v hp hv hacc
    rcases o with e | am
    · have hfinal : (validateRedProposalRun s changes b (.error e)).2 =
          saveAttackProfile cur := by
        simp [validateRedProposalRun, hp]
      exact ⟨hfinal, fun hs => hfinal.trans hs.symm⟩
    · simp only [validateRedProposalRun, hp] at hv ⊢
      split_ifs at hv ⊢ with h
      · simp only [Except.ok.injEq] at hv
        rw [← hv] at hacc
        simp at hacc
      · exact ⟨by simp, fun hs => by rw [hs]⟩
  · intro s changes b o hp
    simp only [validateRedProposalRun, hp]
  · intro cur changes b o hacc
    rcases o with e | am
    · rfl
    · simp only [validateBlueProposalRun] at hacc ⊢
      split_ifs at hacc ⊢
      rfl

/-- C1 (counterexample): a rejected `validateRedProposal` run over the
pre-run profile file `" \x7b\x7d"` (a leading space before an empty JSON
object — accepted by `JSON.parse`) ends with the file holding the
re-serialised `"\x7b\x7d"`, which is not byte-identical to the pre-run
content. -/
theorem validator_rejection_not_byte_identical :
    ((validateRedProposalRun " \x7b\x7d" (Json.obj [])
        ⟨1, 1, [], 1, 0, 0, 1, none⟩
        (.ok ⟨1, 1, [], 1, 0, 1, 0, none⟩)).1.toOption.map
      ValidationResult.accepted) = some false ∧
    (validateRedProposalRun " \x7b\x7d" (Json.obj [])
      ⟨1, 1, [], 1, 0, 0, 1, none⟩
      (.ok ⟨1, 1, [], 1, 0, 1, 0, none⟩)).2 = "\x7b\x7d" ∧
    (" \x7b\x7d" : String) ≠ "\x7b\x7d" := by
  refine ⟨by decide, by decide, by decide⟩

/-- Membership in the triggered list after one accumulation step of
`calculateScore`. -/
theorem mem_trigger_step (x : String) (c : Prop) [Decidable c] (w : ℚ)
    (n : String) (acc : ℚ × List String) :
    (x ∈ (if c then (acc.1 + w, acc.2 ++ [n]) else acc).2) ↔
      (x ∈ acc.2 ∨ (c ∧ x = n)) := by
  split_ifs with h <;> simp [h]

/-- C6 (amended): of the four low-value-suspicious features, only
`dwell_time_avg`, `timing_variance` and `mouse_movement_entropy` carry
the positivity guard: when such a feature's value is 0 it is not
triggered and its configured weight is irrelevant to the score.
`dwell_vs_content_length` has no such guard: whenever the policy
configures it, it is triggered exactly when its value is below the
threshold — an unmeasured 0 included. -/
theorem calculateScore_unmeasured_guards :
    ∀ (f : SessionFeatures ℚ) (p : Policy ℚ),
      (f.dwell_time_avg = 0 →
        "dwell_time_avg" ∉ (calculateScore f p).2 ∧
        ∀ w : ℚ, calculateScore f
          { p with features := { p.features with
              dwell_time_avg := ⟨w, p.features.dwell_time_avg.threshold⟩ } } =
          calculateScore f p) ∧
      (f.timing_variance = 0 →
        "timing_variance" ∉ (calculateScore f p).2 ∧
        ∀ w : ℚ, calculateScore f
          { p with features := { p.features with
              timing_variance := ⟨w, p.features.timing_variance.threshold⟩ } } =
          calculateScore f p) ∧
      (f.mouse_movement_entropy = 0 →
        "mouse_movement_entropy" ∉ (calculateScore f p).2 ∧
        ∀ w : ℚ, calculateScore f
          { p with features := { p.features with
              mouse_movement_entropy :=
                p.features.mouse_movement_entropy.map (fun cfg => ⟨w, cfg.threshold⟩) } } =
          calculateScore f p) ∧
      (∀ cfg : PolicyFeature ℚ, p.features.dwell_vs_content_length = some cfg →
        ("dwell_vs_content_length" ∈ (calculateScore f p).2 ↔
          f.dwell_vs_content_length < cfg.threshold)) := by
  intro f p
  refine ⟨fun h0 => ⟨?_, fun w => ?_⟩, fun h0 => ⟨?_, fun w => ?_⟩,
    fun h0 => ⟨?_, fun w => ?_⟩, fun cfg hcfg => ?_⟩
  · rcases hm : p.features.mouse_movement_entropy with _ | mcfg <;>
      rcases hd : p.features.dwell_vs_content_length with _ | dcfg <;>
        simp [calculateScore, mem_trigger_step, hm, hd, h0] <;>
          split_ifs <;> simp
  · simp [calculateScore, h0]
  · rcases hm : p.features.mouse_movement_entropy with _ | mcfg <;>
      rcases hd : p.features.dwell_vs_content_length with _ | dcfg <;>
        simp [calculateScore, mem_trigger_step, hm, hd, h0] <;>
          split_ifs <;> simp
  · simp [calculateScore, h0]
  · rcases hm : p.features.mouse_movement_entropy with _ | mcfg <;>
      rcases hd : p.features.dwell_vs_content_length with _ | dcfg <;>
        simp [calculateScore, mem_trigger_step, hm, hd, h0] <;>
          split_ifs <;> simp
  · rcases hm : p.features.mouse_movement_entropy with _ | mcfg <;>
      simp [calculateScore, hm, h0]
  · rcases hm : p.features.mouse_movement_entropy with _ | mcfg <;>
      simp [calculateScore, mem_trigger_step, hm, hcfg] <;>
        split_ifs <;> simp

/-- C6 (counterexample): with the default policy, a feature vector that
is benign everywhere but has `dwell_vs_content_length = 0` (an unmeasured
value) still triggers that feature and scores its weight 3.5 — the
claimed positivity guard does not exist for it. -/
theorem calculateScore_dwell_content_zero_triggers :
    (calculateScore ⟨"s1", 5, 3, 3/10, 2, 5000, 3/5, false, 3, 0⟩ defaultPolicy).1 = 7/2 ∧
    "dwell_vs_content_length" ∈
      (calculateScore ⟨"s1", 5, 3, 3/10, 2, 5000, 3/5, false, 3, 0⟩ defaultPolicy).2 ∧
    (⟨"s1", 5, 3, 3/10, 2, 5000, 3/5, false, 3, 0⟩ :
      SessionFeatures ℚ).dwell_vs_content_length = 0 := by
  refine ⟨?_, ?_, rfl⟩ <;> norm_num [calculateScore, defaultPolicy]

/-- C7: `validatePolicy` reports a valid policy with no errors exactly
when the four action bands are strictly increasing; on any other policy,
`runTournament` throws the invalid-policy error before the target
service is started or any traffic runs, and produces no metrics. -/
theorem invalid_bands_abort_tournament :
    ∀ (policy : Policy ℚ) (env : TournamentEnv) (fight round : ℕ),
      (((validatePolicy policy).valid = true ∧ (validatePolicy policy).errors = []) ↔
        (policy.actions.allow.max_score < policy.actions.throttle.max_score ∧
          policy.actions.throttle.max_score < policy.actions.challenge.max_score ∧
          policy.actions.challenge.max_score < policy.actions.block.max_score)) ∧
      (¬ (policy.actions.allow.max_score < policy.actions.throttle.max_score ∧
          policy.actions.throttle.max_score < policy.actions.challenge.max_score ∧
          policy.actions.challenge.max_score < policy.actions.block.max_score) →
        (Tournament.runTournament policy env fight round).2 =
          .error (invalidPolicyMsg (validatePolicy policy).errors) ∧
        TournamentEvent.serviceStarted ∉ (Tournament.runTournament policy env fight round).1 ∧
        TournamentEvent.trafficRun ∉ (Tournament.runTournament policy env fight round).1) := by
  intro policy env fight round
  by_cases h1 : policy.actions.allow.max_score < policy.actions.throttle.max_score <;>
    by_cases h2 : policy.actions.throttle.max_score < policy.actions.challenge.max_score <;>
      by_cases h3 : policy.actions.challenge.max_score < policy.actions.block.max_score <;>
        simp [validatePolicy, Tournament.runTournament, h1, h2, h3]

/-- C10: a request carrying no (or an empty) `X-Session-Id` header and
not on a skipped path is attributed to the shared session id `unknown`:
the logger appends its entry to the `unknown` log list, the detector
computes its features over that shared list (the current entry included)
and appends its result to the `unknown` result list, every other session
is untouched, and a second headerless request accumulates onto the same
shared history. -/
theorem headerless_requests_share_unknown_session :
    ∀ (policy : Policy ℝ) (s : SessionStore) (d : DetectorStore)
      (r : Request) (now : ℝ),
      (r.headerSessionId = none ∨ r.headerSessionId = some "") →
      loggerSkips r.path = false →
      detectorSkips r.path = false →
      ((processRequest policy s d r now).1 "unknown" =
        s "unknown" ++ [mkRequestLog r now]) ∧
      ((processRequest policy s d r now).2.1 "unknown" =
        d "unknown" ++
          [{ sessionId := "unknown"
             score := (calculateScore
               (extractFeatures "unknown" (s "unknown" ++ [mkRequestLog r now]) now)
               policy).1
             action := determineAction
               (calculateScore
                 (extractFeatures "unknown" (s "unknown" ++ [mkRequestLog r now]) now)
                 policy).1 policy
             features := extractFeatures "unknown"
               (s "unknown" ++ [mkRequestLog r now]) now
             triggeredFeatures := (calculateScore
               (extractFeatures "unknown" (s "unknown" ++ [mkRequestLog r now]) now)
               policy).2 }]) ∧
      (∀ k : String, k ≠ "unknown" →
        (processRequest policy s d r now).1 k = s k ∧
        (processRequest policy s d r now).2.1 k = d k) ∧
      (∀ (r' : Request) (now' : ℝ),
        r'.headerSessionId = none →
        loggerSkips r'.path = false →
        createLoggerMiddleware ((processRequest policy s d r now).1) r' now' "unknown" =
          s "unknown" ++ [mkRequestLog r now, mkRequestLog r' now']) := by
  intro policy s d r now hh hlog hdet
  have hsid : sessionIdOf r = "unknown" := by
    rcases hh with h | h <;> simp [sessionIdOf, h]
  refine ⟨?_, ?_, ?_, ?_⟩
  · simp [processRequest, createLoggerMiddleware, detectorStep, hlog, hdet, hsid]
  · simp [processRequest, createLoggerMiddleware, detectorStep, hlog, hdet, hsid]
  · intro k hk
    simp [processRequest, createLoggerMiddleware, detectorStep, hlog, hdet, hsid, hk]
  · intro r' now' hh' hlog'
    have hsid' : sessionIdOf r' = "unknown" := by simp [sessionIdOf, hh']
    simp [processRequest, createLoggerMiddleware, detectorStep, hlog, hdet, hlog',
      hsid, hsid']

/-- Splitting a mapped sum along a Boolean predicate. -/
theorem sum_map_filter_add {α M : Type} [AddCommMonoid M] (f : α → M)
    (p : α → Bool) (l : List α) :
    ((l.filter p).map f).sum + ((l.filter (fun x => !p x)).map f).sum =
      (l.map f).sum := by
  induction l with
  | nil => simp
  | cons a t ih =>
      by_cases h : p a <;>
        simp [h, ← ih, add_assoc, add_left_comm]

/-- A conditional mapped sum is the sum over the filtered list. -/
theorem sum_map_ite {α M : Type} [AddCommMonoid M] (f : α → M) (p : α → Bool)
    (l : List α) :
    (l.map (fun x => if p x then f x else 0)).sum = ((l.filter p).map f).sum := by
  induction l with
  | nil => rfl
  | cons a t ih => by_cases h : p a <;> simp [h, ih]

/-- Summing a function over a flattened list, group by group. -/
theorem sum_map_flatMap {α β M : Type} [AddCommMonoid M] (g : β → M)
    (f : α → List β) (l : List α) :
    ((l.flatMap f).map g).sum = (l.map (fun a => ((f a).map g).sum)).sum := by
  induction l with
  | nil => rfl
  | cons a t ih => simp [ih]

/-- The length of a flattened list, group by group. -/
theorem length_flatMap_eq_sum {α β : Type} (f : α → List β) (l : List α) :
    (l.flatMap f).length = (l.map (fun a => (f a).length)).sum := by
  induction l with
  | nil => rfl
  | cons a t ih => simp [ih]

/-- The key-accumulating fold of `groupKeys` keeps its accumulator's
members. -/
theorem mem_foldl_keys (rs : List SessionResult) :
    ∀ (acc : List String) (x : String), x ∈ acc →
      x ∈ rs.foldl
        (fun ks r => if r.profileType ∈ ks then ks else ks ++ [r.profileType]) acc := by
  induction rs with
  | nil => intro acc x h; exact h
  | cons a t ih =>
      intro acc x h
      simp only [List.foldl_cons]
      by_cases hm : a.profileType ∈ acc
      · simpa [hm] using ih acc x h
      · exact (by simpa [hm] using ih (acc ++ [a.profileType]) x (by simp [h]))

/-- Every session's profile type occurs among the accumulated keys. -/
theorem pt_mem_foldl_keys (rs : List SessionResult) :
    ∀ (acc : List String) (r : SessionResult), r ∈ rs →
      r.profileType ∈ rs.foldl
        (fun ks r => if r.profileType ∈ ks then ks else ks ++ [r.profileType]) acc := by
  induction rs with
  | nil => intro acc r h; exact absurd h (by simp)
  | cons a t ih =>
      intro acc r h
      simp only [List.foldl_cons]
      rcases List.mem_cons.mp h with rfl | hmem
      · by_cases hm : r.profileType ∈ acc
        · simpa [hm] using mem_foldl_keys t acc r.profileType hm
        · simpa [hm] using
            mem_foldl_keys t (acc ++ [r.profileType]) r.profileType (by simp)
      · by_cases hm : a.profileType ∈ acc <;> simpa [hm] using ih _ r hmem

/-- The accumulated key list stays duplicate-free. -/
theorem foldl_keys_nodup (rs : List SessionResult) :
    ∀ acc : List String, acc.Nodup →
      (rs.foldl
        (fun ks r => if r.profileType ∈ ks then ks else ks ++ [r.profileType]) acc).Nodup := by
  induction rs with
  | nil => intro acc h; exact h
  | cons a t ih =>
      intro acc h
      simp only [List.foldl_cons]
      by_cases hm : a.profileType ∈ acc
      · simpa [hm] using ih acc h
      · have hnd2 : (acc ++ [a.profileType]).Nodup := by
          simp [List.nodup_append, h, hm]
        simpa [hm] using ih (acc ++ [a.profileType]) hnd2

/-- `groupKeys` is duplicate-free. -/
theorem groupKeys_nodup (rs : List SessionResult) : (groupKeys rs).Nodup :=
  foldl_keys_nodup rs [] List.nodup_nil

/-- Every session's profile type is a group key. -/
theorem mem_groupKeys {rs : List SessionResult} {r : SessionResult}
    (h : r ∈ rs) : r.profileType ∈ groupKeys rs :=
  pt_mem_foldl_keys rs [] r h

/-- Summing group sums over a duplicate-free, covering key list gives the
total sum. -/
theorem sum_over_keys {M : Type} [AddCommMonoid M] (f : SessionResult → M) :
    ∀ (keys : List String) (rs : List SessionResult), keys.Nodup →
      (∀ r ∈ rs, r.profileType ∈ keys) →
      ((keys.map (fun k =>
        ((rs.filter (fun r => r.profileType == k)).map f).sum)).sum =
        (rs.map f).sum) := by
  intro keys
  induction keys with
  | nil =>
      intro rs _ hall
      cases rs with
      | nil => rfl
      | cons a t => exact absurd (hall a (by simp)) (by simp)
  | cons k ks ih =>
      intro rs hnd hall
      have hk : k ∉ ks := (List.nodup_cons.mp hnd).1
      have hnd' : ks.Nodup := (List.nodup_cons.mp hnd).2
      have hfilter : ∀ k' ∈ ks,
          rs.filter (fun r => r.profileType == k') =
            (rs.filter (fun r => !(r.profileType == k))).filter
              (fun r => r.profileType == k') := by
        intro k' hk'
        rw [List.filter_filter]
        refine (List.filter_congr ?_).symm
        intro r _
        by_cases h : r.profileType = k'
        · have hne : k' ≠ k := fun e => hk (e ▸ hk')
          simp [h, hne]
        · simp [h]
      have hrest : ∀ r ∈ rs.filter (fun r => !(r.profileType == k)),
          r.profileType ∈ ks := by
        intro r hr
        have hmem := List.mem_filter.mp hr
        rcases List.mem_cons.mp (hall r hmem.1) with h | h
        · have hne : r.profileType ≠ k := by simpa using hmem.2
          exact absurd h hne
        · exact h
      calc ((k :: ks).map (fun k' =>
              ((rs.filter (fun r => r.profileType == k')).map f).sum)).sum
        = ((rs.filter (fun r => r.profileType == k)).map f).sum +
            (ks.map (fun k' =>
              ((rs.filter (fun r => r.profileType == k')).map f).sum)).sum := by
              simp
      _ = ((rs.filter (fun r => r.profileType == k)).map f).sum +
            (ks.map (fun k' =>
              (((rs.filter (fun r => !(r.profileType == k))).filter
                (fun r => r.profileType == k')).map f).sum)).sum := by
              congr 1
              refine congrArg List.sum (List.map_congr_left ?_)
              intro k' hk'
              rw [hfilter k' hk']
      _ = ((rs.filter (fun r => r.profileType == k)).map f).sum +
            ((rs.filter (fun r => !(r.profileType == k))).map f).sum := by
              rw [ih (rs.filter (fun r => !(r.profileType == k))) hnd' hrest]
      _ = (rs.map f).sum := sum_map_filter_add f (fun r => r.profileType == k) rs

/-- Summing group sums over `profileGroups` gives the total sum. -/
theorem profileGroups_sum {M : Type} [AddCommMonoid M] (f : SessionResult → M)
    (rs : List SessionResult) :
    (((profileGroups rs).map (fun kg => (kg.2.map f).sum)).sum = (rs.map f).sum) := by
  unfold profileGroups
  rw [List.map_map]
  exact sum_over_keys f (groupKeys rs) rs (groupKeys_nodup rs)
    (fun r hr => mem_groupKeys hr)

/-- Under per-profile-type `isBot` consistency, every member of a group
shares the group head's `isBot` flag. -/
theorem group_members_isBot {rs : List SessionResult}
    (hcons : ∀ r ∈ rs, ∀ r' ∈ rs, r.profileType = r'.profileType → r.isBot = r'.isBot) :
    ∀ kg ∈ profileGroups rs, ∀ r ∈ kg.2, r.isBot = headIsBot kg.2 := by
  intro kg hkg r hr
  obtain ⟨k, hkmem, hkg'⟩ := List.mem_map.mp hkg
  rw [← hkg'] at hr ⊢
  simp only at hr ⊢
  cases hgroup : rs.filter (fun r => r.profileType == k) with
  | nil => rw [hgroup] at hr; exact absurd hr (by simp)
  | cons r0 rest =>
      rw [hgroup] at hr
      have hr0 : r0 ∈ rs.filter (fun r => r.profileType == k) := by
        rw [hgroup]; exact List.mem_cons_self r0 rest
      have hrmem : r ∈ rs.filter (fun r => r.profileType == k) := by
        rw [hgroup]; exact hr
      have h1 := List.mem_filter.mp hr0
      have h2 := List.mem_filter.mp hrmem
      have hh : headIsBot (r0 :: rest) = r0.isBot := rfl
      rw [hh]
      exact hcons r h2.1 r0 h1.1 (by
        have e1 : r.profileType = k := by simpa using h2.2
        have e2 : r0.profileType = k := by simpa using h1.2
        rw [e1, e2])

/-- Under consistency, the side-filtered group sums equal the flat sums
over the sessions of that side. -/
theorem side_sum {M : Type} [AddCommMonoid M] (f : SessionResult → M) (b : Bool)
    {rs : List SessionResult}
    (hcons : ∀ r ∈ rs, ∀ r' ∈ rs, r.profileType = r'.profileType → r.isBot = r'.isBot) :
    ((((profileGroups rs).filter (fun kg => headIsBot kg.2 == b)).map
        (fun kg => (kg.2.map f).sum)).sum =
      ((rs.filter (fun r => r.isBot == b)).map f).sum) := by
  have step1 :=
    (sum_map_ite (fun kg : String × List SessionResult => (kg.2.map f).sum)
      (fun kg => headIsBot kg.2 == b) (profileGroups rs)).symm
  have step2 : ∀ kg ∈ profileGroups rs,
      (if headIsBot kg.2 == b then (kg.2.map f).sum else 0) =
        (kg.2.map (fun r => if r.isBot == b then f r else 0)).sum := by
    intro kg hkg
    by_cases hb : headIsBot kg.2 == b
    · rw [if_pos hb]
      refine congrArg List.sum (List.map_congr_left ?_)
      intro r hr
      rw [group_members_isBot hcons kg hkg r hr, if_pos hb]
    · rw [if_neg hb]
      refine (List.sum_eq_zero ?_).symm
      intro x hx
      obtain ⟨r, hr, hrx⟩ := List.mem_map.mp hx
      rw [group_members_isBot hcons kg hkg r hr] at hrx
      rw [if_neg hb] at hrx
      exact hrx.symm
  rw [step1, List.map_congr_left step2, profileGroups_sum
    (fun r => if r.isBot == b then f r else 0) rs,
    sum_map_ite f (fun r => r.isBot == b) rs]

/-- C4 (amended): in weighted mode, with the fixed credit table
`{block 0, challenge 0.25, throttle 0.5, allow 1}`, `calculateMetrics`
sets the human success rate to the human-side mean credit over every
observed `DetectorResult`, the false-positive rate to `1 −` it, the bot
extraction rate to the bot-side mean credit and the suppression rate to
`1 −` it — provided session results sharing a profile type agree on
`isBot` (a group is classified by its first member) and each side has at
least one observed `DetectorResult` (an empty side defaults to rate 1
for humans and 0 for bots instead of an undefined mean). -/
theorem calculateMetrics_weighted_rates :
    ∀ (rs : List SessionResult) (fight round : ℕ),
      (∀ r ∈ rs, ∀ r' ∈ rs, r.profileType = r'.profileType → r.isBot = r'.isBot) →
      0 < ((rs.filter (fun r => !r.isBot)).flatMap (fun r => r.detectorResults)).length →
      0 < ((rs.filter (fun r => r.isBot)).flatMap (fun r => r.detectorResults)).length →
      (TournamentW.EXTRACTION_WEIGHTS .block = 0 ∧
        TournamentW.EXTRACTION_WEIGHTS .challenge = 1/4 ∧
        TournamentW.EXTRACTION_WEIGHTS .throttle = 1/2 ∧
        TournamentW.EXTRACTION_WEIGHTS .allow = 1) ∧
      (TournamentW.calculateMetrics rs fight round).humanSuccessRate =
        (((rs.filter (fun r => !r.isBot)).flatMap (fun r => r.detectorResults)).map
          (fun dr => TournamentW.EXTRACTION_WEIGHTS dr.action)).sum /
        ((((rs.filter (fun r => !r.isBot)).flatMap (fun r => r.detectorResults)).length : ℚ)) ∧
      (TournamentW.calculateMetrics rs fight round).falsePositiveRate =
        1 - (TournamentW.calculateMetrics rs fight round).humanSuccessRate ∧
      (TournamentW.calculateMetrics rs fight round).botExtractionRate =
        (((rs.filter (fun r => r.isBot)).flatMap (fun r => r.detectorResults)).map
          (fun dr => TournamentW.EXTRACTION_WEIGHTS dr.action)).sum /
        ((((rs.filter (fun r => r.isBot)).flatMap (fun r => r.detectorResults)).length : ℚ)) ∧
      (TournamentW.calculateMetrics rs fight round).botSuppressionRate =
        1 - (TournamentW.calculateMetrics rs fight round).botExtractionRate := by
  intro rs fight round hcons hh hb
  have hpred1 : (fun (kg : String × List SessionResult) => !headIsBot kg.2) =
      (fun kg => headIsBot kg.2 == false) := by
    funext kg; cases headIsBot kg.2 <;> rfl
  have hpred2 : (fun (r : SessionResult) => !r.isBot) =
      (fun r => r.isBot == false) := by
    funext r; cases r.isBot <;> rfl
  have hpred3 : (fun (kg : String × List SessionResult) => headIsBot kg.2) =
      (fun kg => headIsBot kg.2 == true) := by
    funext kg; cases headIsBot kg.2 <;> rfl
  have hpred4 : (fun (r : SessionResult) => r.isBot) =
      (fun r => r.isBot == true) := by
    funext r; cases r.isBot <;> rfl
  have hweights : ∀ b : Bool,
      (((profileGroups rs).filter (fun kg => headIsBot kg.2 == b)).map
        (fun kg => TournamentW.groupWeighted kg.2)).sum =
      (((rs.filter (fun r => r.isBot == b)).flatMap (fun r => r.detectorResults)).map
        (fun dr => TournamentW.EXTRACTION_WEIGHTS dr.action)).sum := by
    intro b
    calc (((profileGroups rs).filter (fun kg => headIsBot kg.2 == b)).map
          (fun kg => TournamentW.groupWeighted kg.2)).sum
        = (((profileGroups rs).filter (fun kg => headIsBot kg.2 == b)).map
            (fun kg => (kg.2.map (fun r => ((r.detectorResults).map
              (fun dr => TournamentW.EXTRACTION_WEIGHTS dr.action)).sum)).sum)).sum := by
          refine congrArg List.sum (List.map_congr_left ?_)
          intro kg _
          simp only [TournamentW.groupWeighted, groupDetectorResults]
          exact sum_map_flatMap (fun dr => TournamentW.EXTRACTION_WEIGHTS dr.action)
            (fun r : SessionResult => r.detectorResults) kg.2
      _ = ((rs.filter (fun r => r.isBot == b)).map
            (fun r => ((r.detectorResults).map
              (fun dr => TournamentW.EXTRACTION_WEIGHTS dr.action)).sum)).sum :=
          side_sum _ b hcons
      _ = (((rs.filter (fun r => r.isBot == b)).flatMap
            (fun r => r.detectorResults)).map
              (fun dr => TournamentW.EXTRACTION_WEIGHTS dr.action)).sum :=
          (sum_map_flatMap _ (fun r : SessionResult => r.detectorResults)
            (rs.filter (fun r => r.isBot == b))).symm
  have hcounts : ∀ b : Bool,
      (((profileGroups rs).filter (fun kg => headIsBot kg.2 == b)).map
        (fun kg => TournamentW.groupCount kg.2)).sum =
      ((rs.filter (fun r => r.isBot == b)).flatMap (fun r => r.detectorResults)).length := by
    intro b
    calc (((profileGroups rs).filter (fun kg => headIsBot kg.2 == b)).map
          (fun kg => TournamentW.groupCount kg.2)).sum
        = (((profileGroups rs).filter (fun kg => headIsBot kg.2 == b)).map
            (fun kg => (kg.2.map (fun r => (r.detectorResults).length)).sum)).sum := by
          refine congrArg List.sum (List.map_congr_left ?_)
          intro kg _
          simp only [TournamentW.groupCount, groupDetectorResults]
          exact length_flatMap_eq_sum (fun r : SessionResult => r.detectorResults) kg.2
      _ = ((rs.filter (fun r => r.isBot == b)).map
            (fun r => (r.detectorResults).length)).sum :=
          side_sum _ b hcons
      _ = ((rs.filter (fun r => r.isBot == b)).flatMap
            (fun r => r.detectorResults)).length :=
          (length_flatMap_eq_sum (fun r : SessionResult => r.detectorResults)
            (rs.filter (fun r => r.isBot == b))).symm
  have hh' : 0 < ((rs.filter (fun r => r.isBot == false)).flatMap
      (fun r => r.detectorResults)).length := by
    rw [← hpred2]; exact hh
  have hb' : 0 < ((rs.filter (fun r => r.isBot == true)).flatMap
      (fun r => r.detectorResults)).length := by
    rw [← hpred4]; exact hb
  refine ⟨⟨rfl, rfl, rfl, rfl⟩, ?_, rfl, ?_, rfl⟩
  · show (if ((((profileGroups rs).filter (fun kg => !headIsBot kg.2)).map
        (fun kg => TournamentW.groupCount kg.2)).sum > 0) then _ / _ else 1) = _
    rw [hpred1, hweights false, hcounts false, if_pos hh', hpred2]
  · show (if ((((profileGroups rs).filter (fun kg => headIsBot kg.2)).map
        (fun kg => TournamentW.groupCount kg.2)).sum > 0) then _ / _ else 0) = _
    rw [hpred3, hweights true, hcounts true, if_pos hb', hpred4]

/-- C4 (witness): the amended metrics law applied to one human session
(one `allow` result) and one bot session (one `block` result) of distinct
profile types. -/
theorem calculateMetrics_weighted_rates_witness :
    (TournamentW.EXTRACTION_WEIGHTS .block = 0 ∧
      TournamentW.EXTRACTION_WEIGHTS .challenge = 1/4 ∧
      TournamentW.EXTRACTION_WEIGHTS .throttle = 1/2 ∧
      TournamentW.EXTRACTION_WEIGHTS .allow = 1) ∧
    (TournamentW.calculateMetrics
      [⟨"h1", "human", false, 1, 1, 0,
          [⟨"h1", 0, .allow, ⟨"h1", 0, 0, 0, 0, 0, 0, false, 0, 0⟩, []⟩],
          false, false, false, 1, 0⟩,
        ⟨"b1", "bot", true, 1, 0, 0,
          [⟨"b1", 10, .block, ⟨"b1", 0, 0, 0, 0, 0, 0, false, 0, 0⟩, []⟩],
          true, false, false, 0, 0⟩] 1 1).humanSuccessRate =
      ((([⟨"h1", "human", false, 1, 1, 0,
          [⟨"h1", 0, .allow, ⟨"h1", 0, 0, 0, 0, 0, 0, false, 0, 0⟩, []⟩],
          false, false, false, 1, 0⟩,
        (⟨"b1", "bot", true, 1, 0, 0,
          [⟨"b1", 10, .block, ⟨"b1", 0, 0, 0, 0, 0, 0, false, 0, 0⟩, []⟩],
          true, false, false, 0, 0⟩ : SessionResult)].filter
            (fun r => !r.isBot)).flatMap (fun r => r.detectorResults)).map
        (fun dr => TournamentW.EXTRACTION_WEIGHTS dr.action)).sum /
      ((([⟨"h1", "human", false, 1, 1, 0,
          [⟨"h1", 0, .allow, ⟨"h1", 0, 0, 0, 0, 0, 0, false, 0, 0⟩, []⟩],
          false, false, false, 1, 0⟩,
        (⟨"b1", "bot", true, 1, 0, 0,
          [⟨"b1", 10, .block, ⟨"b1", 0, 0, 0, 0, 0, 0, false, 0, 0⟩, []⟩],
          true, false, false, 0, 0⟩ : SessionResult)].filter
            (fun r => !r.isBot)).flatMap (fun r => r.detectorResults)).length : ℚ) ∧
    (TournamentW.calculateMetrics
      [⟨"h1", "human", false, 1, 1, 0,
          [⟨"h1", 0, .allow, ⟨"h1", 0, 0, 0, 0, 0, 0, false, 0, 0⟩, []⟩],
          false, false, false, 1, 0⟩,
        ⟨"b1", "bot", true, 1, 0, 0,
          [⟨"b1", 10, .block, ⟨"b1", 0, 0, 0, 0, 0, 0, false, 0, 0⟩, []⟩],
          true, false, false, 0, 0⟩] 1 1).falsePositiveRate =
      1 - (TournamentW.calculateMetrics
        [⟨"h1", "human", false, 1, 1, 0,
            [⟨"h1", 0, .allow, ⟨"h1", 0, 0, 0, 0, 0, 0, false, 0, 0⟩, []⟩],
            false, false, false, 1, 0⟩,
          ⟨"b1", "bot", true, 1, 0, 0,
            [⟨"b1", 10, .block, ⟨"b1", 0, 0, 0, 0, 0, 0, false, 0, 0⟩, []⟩],
            true, false, false, 0, 0⟩] 1 1).humanSuccessRate ∧
    (TournamentW.calculateMetrics
      [⟨"h1", "human", false, 1, 1, 0,
          [⟨"h1", 0, .allow, ⟨"h1", 0, 0, 0, 0, 0, 0, false, 0, 0⟩, []⟩],
          false, false, false, 1, 0⟩,
        ⟨"b1", "bot", true, 1, 0, 0,
          [⟨"b1", 10, .block, ⟨"b1", 0, 0, 0, 0, 0, 0, false, 0, 0⟩, []⟩],
          true, false, false, 0, 0⟩] 1 1).botExtractionRate =
      ((([⟨"h1", "human", false, 1, 1, 0,
          [⟨"h1", 0, .allow, ⟨"h1", 0, 0, 0, 0, 0, 0, false, 0, 0⟩, []⟩],
          false, false, false, 1, 0⟩,
        (⟨"b1", "bot", true, 1, 0, 0,
          [⟨"b1", 10, .block, ⟨"b1", 0, 0, 0, 0, 0, 0, false, 0, 0⟩, []⟩],
          true, false, false, 0, 0⟩ : SessionResult)].filter
            (fun r => r.isBot)).flatMap (fun r => r.detectorResults)).map
        (fun dr => TournamentW.EXTRACTION_WEIGHTS dr.action)).sum /
      ((([⟨"h1", "human", false, 1, 1, 0,
          [⟨"h1", 0, .allow, ⟨"h1", 0, 0, 0, 0, 0, 0, false, 0, 0⟩, []⟩],
          false, false, false, 1, 0⟩,
        (⟨"b1", "bot", true, 1, 0, 0,
          [⟨"b1", 10, .block, ⟨"b1", 0, 0, 0, 0, 0, 0, false, 0, 0⟩, []⟩],
          true, false, false, 0, 0⟩ : SessionResult)].filter
            (fun r => r.isBot)).flatMap (fun r => r.detectorResults)).length : ℚ) ∧
    (TournamentW.calculateMetrics
      [⟨"h1", "human", false, 1, 1, 0,
          [⟨"h1", 0, .allow, ⟨"h1", 0, 0, 0, 0, 0, 0, false, 0, 0⟩, []⟩],
          false, false, false, 1, 0⟩,
        ⟨"b1", "bot", true, 1, 0, 0,
          [⟨"b1", 10, .block, ⟨"b1", 0, 0, 0, 0, 0, 0, false, 0, 0⟩, []⟩],
          true, false, false, 0, 0⟩] 1 1).botSuppressionRate =
      1 - (TournamentW.calculateMetrics
        [⟨"h1", "human", false, 1, 1, 0,
            [⟨"h1", 0, .allow, ⟨"h1", 0, 0, 0, 0, 0, 0, false, 0, 0⟩, []⟩],
            false, false, false, 1, 0⟩,
          ⟨"b1", "bot", true, 1, 0, 0,
            [⟨"b1", 10, .block, ⟨"b1", 0, 0, 0, 0, 0, 0, false, 0, 0⟩, []⟩],
            true, false, false, 0, 0⟩] 1 1).botExtractionRate :=
  calculateMetrics_weighted_rates
    [⟨"h1", "human", false, 1, 1, 0,
        [⟨"h1", 0, .allow, ⟨"h1", 0, 0, 0, 0, 0, 0, false, 0, 0⟩, []⟩],
        false, false, false, 1, 0⟩,
      ⟨"b1", "bot", true, 1, 0, 0,
        [⟨"b1", 10, .block, ⟨"b1", 0, 0, 0, 0, 0, 0, false, 0, 0⟩, []⟩],
        true, false, false, 0, 0⟩] 1 1
    (by decide) (by decide) (by decide)

/-- C4 (counterexample): with two session results sharing the profile
type `"scraper"` but disagreeing on `isBot` (the bot first), the whole
group is classified by its first member: the blocked human's results are
counted on the bot side, the human side is empty, and `humanSuccessRate`
comes out 1 although the human-side mean credit over the observed
`DetectorResult`s is 0 — refuting the claim for arbitrary non-empty
collections. -/
theorem calculateMetrics_mixed_profile_counterexample :
    (TournamentW.calculateMetrics
      [⟨"b1", "scraper", true, 1, 1, 0,
          [⟨"b1", 0, .allow, ⟨"b1", 0, 0, 0, 0, 0, 0, false, 0, 0⟩, []⟩],
          false, false, false, 1, 0⟩,
        ⟨"h1", "scraper", false, 1, 0, 0,
          [⟨"h1", 10, .block, ⟨"h1", 0, 0, 0, 0, 0, 0, false, 0, 0⟩, []⟩],
          true, false, false, 0, 0⟩] 1 1).humanSuccessRate = 1 ∧
    ((([⟨"b1", "scraper", true, 1, 1, 0,
          [⟨"b1", 0, .allow, ⟨"b1", 0, 0, 0, 0, 0, 0, false, 0, 0⟩, []⟩],
          false, false, false, 1, 0⟩,
        (⟨"h1", "scraper", false, 1, 0, 0,
          [⟨"h1", 10, .block, ⟨"h1", 0, 0, 0, 0, 0, 0, false, 0, 0⟩, []⟩],
          true, false, false, 0, 0⟩ : SessionResult)].filter
            (fun r => !r.isBot)).flatMap (fun r => r.detectorResults)).map
        (fun dr => TournamentW.EXTRACTION_WEIGHTS dr.action)).sum /
      ((([⟨"b1", "scraper", true, 1, 1, 0,
          [⟨"b1", 0, .allow, ⟨"b1", 0, 0, 0, 0, 0, 0, false, 0, 0⟩, []⟩],
          false, false, false, 1, 0⟩,
        (⟨"h1", "scraper", false, 1, 0, 0,
          [⟨"h1", 10, .block, ⟨"h1", 0, 0, 0, 0, 0, 0, false, 0, 0⟩, []⟩],
          true, false, false, 0, 0⟩ : SessionResult)].filter
            (fun r => !r.isBot)).flatMap (fun r => r.detectorResults)).length : ℚ) = 0 ∧
    (1 : ℚ) ≠ 0 := by
  refine ⟨?_, ?_, by norm_num⟩
  · norm_num [TournamentW.calculateMetrics, profileGroups, groupKeys,
      TournamentW.groupWeighted, TournamentW.groupCount, groupDetectorResults,
      headIsBot, TournamentW.EXTRACTION_WEIGHTS]
  · norm_num [TournamentW.EXTRACTION_WEIGHTS]

/-- C10 (witness): a headerless `GET /api/products` request against empty
stores lands its log entry in the `unknown` session's list. -/
theorem headerless_requests_share_unknown_session_witness :
    (processRequest
      ⟨⟨⟨0, 0⟩, ⟨0, 0⟩, ⟨0, 0⟩, ⟨0, 0⟩, ⟨0, 0⟩, ⟨0, 0⟩, 0, none, none⟩,
        ⟨⟨0⟩, ⟨0⟩, ⟨0⟩, ⟨0⟩⟩, ⟨0⟩⟩
      (fun _ => []) (fun _ => [])
      ⟨none, none, none, none, "/api/products", "GET", [], ""⟩ 0).1 "unknown" =
      (fun _ => ([] : List RequestLog)) "unknown" ++
        [mkRequestLog ⟨none, none, none, none, "/api/products", "GET", [], ""⟩ 0] :=
  (headerless_requests_share_unknown_session
    ⟨⟨⟨0, 0⟩, ⟨0, 0⟩, ⟨0, 0⟩, ⟨0, 0⟩, ⟨0, 0⟩, ⟨0, 0⟩, 0, none, none⟩,
      ⟨⟨0⟩, ⟨0⟩, ⟨0⟩, ⟨0⟩⟩, ⟨0⟩⟩
    (fun _ => []) (fun _ => [])
    ⟨none, none, none, none, "/api/products", "GET", [], ""⟩ 0
    (Or.inl rfl) (by decide) (by decide)).1

end BotArena
